import Mathlib

/-!
Verification of `an_dl.py`, an AudioNetwork downloader.

The script is shallowly embedded: pure string manipulation becomes Lean
functions on `String` / `List Char`; the network is an oracle (`Net`);
the filesystem is the set of existing paths (`FS`); the observable
behaviour of a run is a list of `Event`s (network fetches, file writes,
console prints) plus a final filesystem and an optional Python-level
exception.
-/

set_option autoImplicit false

namespace AnDl

/-! ## Python string splitting

`s.split(sep, 1)` and `s.rsplit(sep, 1)` with a one-character separator.
`splitOnce` splits a character list at the FIRST occurrence of `sep`,
returning one piece (no separator) or two pieces. -/

def splitOnce (sep : Char) : List Char → List (List Char)
  | [] => [[]]
  | c :: rest =>
    if c = sep then [[], rest]
    else
      match splitOnce sep rest with
      | [] => [[c]]
      | x :: xs => (c :: x) :: xs

/-- Python `s.split(sep, 1)` (split at first occurrence). -/
def pySplit1 (sep : Char) (s : String) : List String :=
  (splitOnce sep s.data).map String.mk

/-- Python `s.rsplit(sep, 1)` (split at last occurrence), obtained by
splitting the reversed character list at its first occurrence. -/
def pyRsplit1 (sep : Char) (s : String) : List String :=
  (((splitOnce sep s.data.reverse).map List.reverse).map String.mk).reverse

/-- Python `f"{n:02d}"` for a natural number: the decimal representation
left-padded with zeros to width 2. -/
def format02 (n : Nat) : String :=
  String.mk (List.replicate (2 - (Nat.repr n).length) '0') ++ Nat.repr n

/-- `file_ext = file_url.rsplit(".", 1); file_ext[-1]` — the extension used
in the output file name (the whole URL when it has no dot). -/
def extOf (url : String) : String :=
  (pyRsplit1 '.' url).getLastD ""

/-- `release_year = releaseDate.split("-", 1)[0]`. -/
def yearOf (releaseDate : String) : String :=
  (pySplit1 '-' releaseDate).headD ""

/-! ## Data model

Track / album metadata as decoded from the page JSON.  An `Option` at a
field models presence of the dictionary key (a missing key raises
`KeyError` in Python); the artwork `url` value itself may be JSON `null`,
hence the inner `Option`. -/

structure Artwork where
  /-- `none`: the `"url"` key is absent (KeyError); `some none`: present
  but `null` (falsy); `some (some s)`: present with string value. -/
  url : Option (Option String)
  deriving DecidableEq, Repr

structure AlbumField where
  name : Option String
  artwork : Option Artwork
  deriving DecidableEq, Repr

structure TrackInfo where
  previewUrl : String
  title : String
  albumTrackNumber : Nat
  album : Option AlbumField
  releaseDate : Option String
  deriving DecidableEq, Repr

structure AlbumInfo where
  title : Option String
  releaseDate : Option String
  artwork : Option Artwork
  deriving DecidableEq, Repr

/-- Output file name: `f"{track_info['albumTrackNumber']:02d}. {track_info['title']}.{file_ext[-1]}"`
(identical in `download_song` and the `download_album` loop). -/
def trackFileName (t : TrackInfo) : String :=
  format02 t.albumTrackNumber ++ ". " ++ t.title ++ "." ++ extOf t.previewUrl

/-- Destination folder of `download_song`: `output / f"{release_year} - {album}"`
when both `track_info["album"]["name"]` and `track_info["releaseDate"]`
exist, otherwise (KeyError) the output root. Paths are segment lists. -/
def songFolder (t : TrackInfo) (output : List String) : List String :=
  match t.album with
  | some a =>
    match a.name, t.releaseDate with
    | some nm, some rd => output ++ [yearOf rd ++ " - " ++ nm]
    | _, _ => output
  | none => output

/-- Destination folder and album label of `download_album`: on KeyError the
label becomes `"Unknown album"` and the folder the output root. -/
def albumFolderLabel (a : AlbumInfo) (output : List String) : List String × String :=
  match a.title, a.releaseDate with
  | some ti, some rd => (output ++ [yearOf rd ++ " - " ++ ti], ti)
  | _, _ => (output, "Unknown album")

/-! ## Effects model

A path is a list of segments; the filesystem is the list of existing
files. A run produces an event trace. Network fetches are tagged by the
call site that issues them (page HTML, audio preview, cover art). -/

abbrev Path := List String
abbrev FS := List Path

inductive FetchKind where
  | page
  | audio
  | cover
  deriving DecidableEq, Repr

inductive Event where
  | fetch (kind : FetchKind) (url : String)
  | write (path : Path) (data : String)
  | mkdir (path : Path)
  | printOut (msg : String)
  | printErr (msg : String)
  deriving DecidableEq, Repr

/-- The network oracle: whether a GET succeeds (`response.ok`, equivalently
`raise_for_status` not raising) and the body it returns. -/
structure Net where
  ok : String → Bool
  content : String → String

/-- Python exceptions reaching `main`'s handler. `exc` is a plain
`Exception(msg)` raised by `download`; `transport` an HTTP error from
`raise_for_status`; `keyError` an uncaught dictionary lookup failure. -/
inductive PyError where
  | exc (msg : String)
  | transport (url : String)
  | keyError (key : String)
  | typeError
  deriving DecidableEq, Repr

structure Outcome where
  events : List Event
  fs : FS
  error : Option PyError
  deriving DecidableEq, Repr

def insertFS (p : Path) (fs : FS) : FS :=
  if p ∈ fs then fs else p :: fs

/-- `track_info["album"]["artwork"]["url"]` — `.error ()` is a `KeyError`
on any of the three lookups; `.ok v` the (possibly null) value. -/
def TrackInfo.coverLookup (t : TrackInfo) : Except Unit (Option String) :=
  match t.album with
  | none => .error ()
  | some a =>
    match a.artwork with
    | none => .error ()
    | some aw =>
      match aw.url with
      | none => .error ()
      | some v => .ok v

/-- `album_info["artwork"]["url"]`. -/
def AlbumInfo.coverLookup (a : AlbumInfo) : Except Unit (Option String) :=
  match a.artwork with
  | none => .error ()
  | some aw =>
    match aw.url with
    | none => .error ()
    | some v => .ok v

/-- Python truthiness of the artwork URL value (`if cover_url:`): `null`
and the empty string are falsy. -/
def truthyUrl : Option String → Bool
  | none => false
  | some s => !s.isEmpty

/-- The cover-art block shared by `download_song` and `download_album`
(the bodies are identical except for the `except KeyError` handler, passed
in as `onKeyError`; the caller performs the `cover_file.exists()` check).
Fetches the URL when present and truthy, writes `folder.jpg` only when
`response.ok`, and never raises. -/
def coverStep (net : Net) (lookup : Except Unit (Option String)) (coverFile : Path)
    (onKeyError : List Event) (fs : FS) : List Event × FS :=
  match lookup with
  | .error () => (onKeyError, fs)
  | .ok v =>
    if truthyUrl v then
      let url := v.getD ""
      if net.ok url then
        ([.fetch .cover url, .write coverFile (net.content url)], insertFS coverFile fs)
      else
        ([.fetch .cover url], fs)
    else ([], fs)

/-- `download_song(session, track_info, output)`. -/
def download_song (net : Net) (t : TrackInfo) (output : Path) (fs : FS) : Outcome :=
  let outName := trackFileName t
  let outFolder := songFolder t output
  let evs0 : List Event :=
    [.mkdir outFolder, .printOut (outName ++ "..."), .fetch .audio t.previewUrl]
  if net.ok t.previewUrl then
    let trackPath := outFolder ++ [outName]
    let fs1 := insertFS trackPath fs
    let evs1 := evs0 ++ [.write trackPath (net.content t.previewUrl), .printOut "OK."]
    let coverFile := outFolder ++ ["folder.jpg"]
    if coverFile ∈ fs1 then
      { events := evs1, fs := fs1, error := none }
    else
      let c := coverStep net t.coverLookup coverFile [] fs1
      { events := evs1 ++ c.1, fs := c.2, error := none }
  else
    { events := evs0, fs := fs, error := some (.transport t.previewUrl) }

/-- The per-track loop of `download_album`: sequential downloads into
`outFolder`; the first `raise_for_status` failure aborts the rest. -/
def downloadTracks (net : Net) (outFolder : Path) :
    List TrackInfo → FS → List Event × FS × Option PyError
  | [], fs => ([], fs, none)
  | t :: rest, fs =>
    let outName := trackFileName t
    let evs0 : List Event := [.printOut (outName ++ "..."), .fetch .audio t.previewUrl]
    if net.ok t.previewUrl then
      let trackPath := outFolder ++ [outName]
      let fs1 := insertFS trackPath fs
      let evs1 := evs0 ++ [.write trackPath (net.content t.previewUrl), .printOut "OK."]
      let r := downloadTracks net outFolder rest fs1
      (evs1 ++ r.1, r.2.1, r.2.2)
    else
      (evs0, fs, some (.transport t.previewUrl))

/-- `download_album(session, album_info, tracks_info, output)`. -/
def download_album (net : Net) (a : AlbumInfo) (tracks : List TrackInfo)
    (output : Path) (fs : FS) : Outcome :=
  let fl := albumFolderLabel a output
  let outFolder := fl.1
  let album := fl.2
  let coverFile := outFolder ++ ["folder.jpg"]
  let cover : List Event × FS :=
    if coverFile ∈ fs then ([], fs)
    else
      coverStep net a.coverLookup coverFile
        [.printErr ("Couldn't find a cover for album " ++ album)] fs
  let evs1 := Event.mkdir outFolder :: cover.1
    ++ [.printOut ("Downloading " ++ toString tracks.length ++ " tracks for album " ++ album)]
  let r := downloadTracks net outFolder tracks cover.2
  { events := evs1 ++ r.1, fs := r.2.1, error := r.2.2 }

/-! ## Trace selectors -/

def audioFetches (evs : List Event) : List String :=
  evs.filterMap fun e =>
    match e with
    | .fetch .audio u => some u
    | _ => none

def coverFetches (evs : List Event) : List String :=
  evs.filterMap fun e =>
    match e with
    | .fetch .cover u => some u
    | _ => none

def errPrints (evs : List Event) : List String :=
  evs.filterMap fun e =>
    match e with
    | .printErr m => some m
    | _ => none

def writesTo (p : Path) (evs : List Event) : Nat :=
  (evs.filter fun e =>
    match e with
    | .write q _ => q = p
    | _ => false).length

/-! ## Extractor and dispatch (`download`) -/

/-- Decoded JSON values (`json.loads` output). -/
inductive Json where
  | null
  | str (s : String)
  | num (n : Int)
  | bool (b : Bool)
  | arr (elems : List Json)
  | obj (fields : List (String × Json))

/-- Python `d[k]`: `KeyError` when the key is absent from a dict,
`TypeError` when subscripting a non-dict with a string key. -/
def Json.getKey : Json → String → Except PyError Json
  | .obj fields, k =>
    match fields.lookup k with
    | some v => .ok v
    | none => .error (.keyError k)
  | _, _ => .error .typeError

/-- Python `k in d` for a dict. -/
def Json.hasKey : Json → String → Bool
  | .obj fields, k => (fields.lookup k).isSome
  | _, _ => false

/-- `data["props"]["pageProps"]` (the body of the `try` at lines 119-121). -/
def pagePropsLookup (data : Json) : Except PyError Json :=
  match data.getKey "props" with
  | .ok p => p.getKey "pageProps"
  | .error e => .error e

/-- Lines 114-123 of `download`: `soup.find_all(id="__NEXT_DATA__")` gave
`elems` (already JSON-decoded); no element raises
`Exception("Data segment not found")`; a `KeyError` on the
`props.pageProps` path is turned into `Exception("No page info found.")`. -/
def findPageInfo (elems : List Json) : Except PyError Json :=
  match elems with
  | [] => .error (.exc "Data segment not found")
  | data :: _ =>
    match pagePropsLookup data with
    | .ok pageInfo => .ok pageInfo
    | .error (.keyError _) => .error (.exc "No page info found.")
    | .error e => .error e

inductive Mode where
  | singleTrack (t : Json)
  | albumMode (album : Json) (tracks : Json)

/-- Lines 125-132 of `download`: shape-based dispatch on the page info. -/
def dispatch (pageInfo : Json) : Except PyError Mode :=
  if pageInfo.hasKey "track" then
    match pageInfo.getKey "track" with
    | .ok t => .ok (.singleTrack t)
    | .error e => .error e
  else if pageInfo.hasKey "tracks" then
    match pageInfo.getKey "album" with
    | .ok a =>
      match pageInfo.getKey "tracks" with
      | .ok ts => .ok (.albumMode a ts)
      | .error e => .error e
    | .error e => .error e
  else
    .error (.exc "No track info found")

/-! ## `main` (lines 150-159) -/

/-- `str(ex)` for the exceptions the embedding models. -/
def errMsg : PyError → String
  | .exc m => m
  | .transport url => "HTTP error for url: " ++ url
  | .keyError k => k
  | .typeError => "type error"

/-- What `download(url, output)` did before control returned to `main`:
either it completed (perhaps raising an exception) or the user
interrupted. -/
inductive RunResult where
  | completed (error : Option PyError)
  | interrupted
  deriving DecidableEq, Repr

/-- The `try/except` of `main`: exit code together with the lines printed
on stderr. -/
def mainExit : RunResult → Nat × List String
  | .interrupted => (127, ["Interrupted."])
  | .completed none => (0, [])
  | .completed (some e) => (1, ["An error occurred: " ++ errMsg e])

/-! ## Concrete scenario data (used to instantiate the theorems) -/

/-- A network where every fetch succeeds. -/
def allOkNet : Net := ⟨fun _ => true, fun _ => "BYTES"⟩

/-- A network where only the URL `"bad.mp3"` fails. -/
def badTrackNet : Net := ⟨fun u => !(u == "bad.mp3"), fun _ => "BYTES"⟩

/-- A network where only the cover URL `"cov"` fails. -/
def badCoverNet : Net := ⟨fun u => !(u == "cov"), fun _ => "BYTES"⟩

def sampleTrack1 : TrackInfo := ⟨"a.mp3", "First", 1, none, none⟩

def sampleBadTrack : TrackInfo := ⟨"bad.mp3", "Second", 2, none, none⟩

def samplePostTrack : TrackInfo := ⟨"c.mp3", "Third", 3, none, none⟩

/-- A track whose album metadata carries an artwork URL. -/
def sampleArtTrack : TrackInfo :=
  ⟨"a.mp3", "First", 1, some ⟨some "Disc", some ⟨some (some "cov")⟩⟩, some "2001-01-01"⟩

/-- Album metadata with an artwork URL (`"cov"`). -/
def sampleAlbum : AlbumInfo := ⟨some "Al", some "2001-05-05", some ⟨some (some "cov")⟩⟩

/-- Album metadata whose `artwork` key is absent (KeyError path). -/
def sampleAlbumNoArt : AlbumInfo := ⟨some "Al", some "2001-05-05", none⟩

/-- A decoded album-page shape: `tracks` and `album` keys, no `track`. -/
def sampleAlbumFields : List (String × Json) :=
  [("tracks", Json.arr []), ("album", Json.obj [])]

/-! ## Trace selector lemmas -/

@[simp]
theorem audioFetches_nil : audioFetches [] = [] := rfl

@[simp]
theorem coverFetches_nil : coverFetches [] = [] := rfl

@[simp]
theorem errPrints_nil : errPrints [] = [] := rfl

@[simp]
theorem audioFetches_append (a b : List Event) :
    audioFetches (a ++ b) = audioFetches a ++ audioFetches b :=
  List.filterMap_append a b _

@[simp]
theorem coverFetches_append (a b : List Event) :
    coverFetches (a ++ b) = coverFetches a ++ coverFetches b :=
  List.filterMap_append a b _

@[simp]
theorem errPrints_append (a b : List Event) :
    errPrints (a ++ b) = errPrints a ++ errPrints b :=
  List.filterMap_append a b _

@[simp]
theorem audioFetches_cons (e : Event) (l : List Event) :
    audioFetches (e :: l) =
      (match e with | .fetch .audio u => [u] | _ => []) ++ audioFetches l := by
  cases e with
  | fetch k u => cases k <;> rfl
  | write p d => rfl
  | mkdir p => rfl
  | printOut m => rfl
  | printErr m => rfl

@[simp]
theorem coverFetches_cons (e : Event) (l : List Event) :
    coverFetches (e :: l) =
      (match e with | .fetch .cover u => [u] | _ => []) ++ coverFetches l := by
  cases e with
  | fetch k u => cases k <;> rfl
  | write p d => rfl
  | mkdir p => rfl
  | printOut m => rfl
  | printErr m => rfl

@[simp]
theorem errPrints_cons (e : Event) (l : List Event) :
    errPrints (e :: l) =
      (match e with | .printErr m => [m] | _ => []) ++ errPrints l := by
  cases e with
  | fetch k u => cases k <;> rfl
  | write p d => rfl
  | mkdir p => rfl
  | printOut m => rfl
  | printErr m => rfl

/-! ## Filesystem lemmas -/

theorem mem_insertFS_of_mem {p q : Path} {fs : FS} (h : p ∈ fs) : p ∈ insertFS q fs := by
  unfold insertFS
  split
  · exact h
  · exact List.mem_cons_of_mem _ h

theorem self_mem_insertFS (p : Path) (fs : FS) : p ∈ insertFS p fs := by
  unfold insertFS
  split
  · assumption
  · exact List.mem_cons_self _ _

theorem not_mem_of_not_mem_insertFS {p q : Path} {fs : FS}
    (h : p ∉ insertFS q fs) : p ∉ fs :=
  fun hm => h (mem_insertFS_of_mem hm)

/-! ## Facts about the cover-art block -/

theorem coverStep_audioFetches (net : Net) (lk : Except Unit (Option String))
    (cf : Path) (onKE : List Event) (fs : FS) (h : audioFetches onKE = []) :
    audioFetches (coverStep net lk cf onKE fs).1 = [] := by
  cases lk with
  | error u =>
    cases u
    simpa [coverStep] using h
  | ok v =>
    by_cases ht : truthyUrl v
    · by_cases hok : net.ok (v.getD "") <;> simp [coverStep, ht, hok]
    · simp [coverStep, ht]

theorem coverStep_coverFetches_le (net : Net) (lk : Except Unit (Option String))
    (cf : Path) (onKE : List Event) (fs : FS) (h : coverFetches onKE = []) :
    (coverFetches (coverStep net lk cf onKE fs).1).length ≤ 1 := by
  cases lk with
  | error u =>
    cases u
    simp [coverStep, h]
  | ok v =>
    by_cases ht : truthyUrl v
    · by_cases hok : net.ok (v.getD "") <;> simp [coverStep, ht, hok]
    · simp [coverStep, ht]

theorem coverStep_coverFetches_mem {net : Net} {lk : Except Unit (Option String)}
    {cf : Path} {onKE : List Event} {fs : FS} {u : String}
    (h : coverFetches onKE = [])
    (hm : u ∈ coverFetches (coverStep net lk cf onKE fs).1) :
    lk = .ok (some u) ∧ u ≠ "" := by
  cases lk with
  | error uu =>
    cases uu
    rw [show (coverStep net (.error ()) cf onKE fs).1 = onKE from rfl, h] at hm
    cases hm
  | ok v =>
    cases v with
    | none => simp [coverStep, truthyUrl] at hm
    | some s =>
      by_cases hs : s.isEmpty
      · simp [coverStep, truthyUrl, hs] at hm
      · by_cases hok : net.ok s
        all_goals
          simp [coverStep, truthyUrl, hs, hok] at hm
          subst hm
          refine ⟨rfl, ?_⟩
          intro he
          rw [he] at hs
          simp [String.isEmpty] at hs

theorem coverStep_errPrints_ok (net : Net) (v : Option String)
    (cf : Path) (onKE : List Event) (fs : FS) :
    errPrints (coverStep net (.ok v) cf onKE fs).1 = [] := by
  by_cases ht : truthyUrl v
  · by_cases hok : net.ok (v.getD "") <;> simp [coverStep, ht, hok]
  · simp [coverStep, ht]

/-! ## Facts about the album track loop -/

theorem downloadTracks_coverFetches (net : Net) (f : Path) :
    ∀ (ts : List TrackInfo) (fs : FS),
      coverFetches (downloadTracks net f ts fs).1 = [] := by
  intro ts
  induction ts with
  | nil => intro fs; rfl
  | cons t rest ih =>
    intro fs
    unfold downloadTracks
    by_cases hok : net.ok t.previewUrl
    · simp [hok, ih]
    · simp [hok]

theorem downloadTracks_errPrints (net : Net) (f : Path) :
    ∀ (ts : List TrackInfo) (fs : FS),
      errPrints (downloadTracks net f ts fs).1 = [] := by
  intro ts
  induction ts with
  | nil => intro fs; rfl
  | cons t rest ih =>
    intro fs
    unfold downloadTracks
    by_cases hok : net.ok t.previewUrl
    · simp [hok, ih]
    · simp [hok]

theorem downloadTracks_fs_mono (net : Net) (f : Path) {p : Path} :
    ∀ (ts : List TrackInfo) (fs : FS), p ∈ fs → p ∈ (downloadTracks net f ts fs).2.1 := by
  intro ts
  induction ts with
  | nil => intro fs h; exact h
  | cons t rest ih =>
    intro fs h
    unfold downloadTracks
    by_cases hok : net.ok t.previewUrl
    · simp only [hok, if_true]
      exact ih _ (mem_insertFS_of_mem h)
    · simpa [hok] using h

theorem downloadTracks_error_shape (net : Net) (f : Path) :
    ∀ (ts : List TrackInfo) (fs : FS),
      (downloadTracks net f ts fs).2.2 = none ∨
      ∃ u, (downloadTracks net f ts fs).2.2 = some (.transport u) := by
  intro ts
  induction ts with
  | nil => intro fs; exact .inl rfl
  | cons t rest ih =>
    intro fs
    unfold downloadTracks
    by_cases hok : net.ok t.previewUrl
    · simpa [hok] using ih _
    · exact .inr ⟨t.previewUrl, by simp [hok]⟩

/-- The heart of claim C4, at the level of the track loop: when every
track of `pre` fetches fine and `bad` does not, the loop raises the
transport error of `bad`, the audio fetches are exactly those of `pre`
followed by `bad` (in order; nothing of `post` is fetched), and the files
of `pre` are in the final filesystem. -/
theorem downloadTracks_abort (net : Net) (f : Path) (bad : TrackInfo)
    (hbad : net.ok bad.previewUrl = false) :
    ∀ (pre : List TrackInfo) (post : List TrackInfo) (fs : FS),
      (∀ t ∈ pre, net.ok t.previewUrl = true) →
      (downloadTracks net f (pre ++ bad :: post) fs).2.2
          = some (.transport bad.previewUrl) ∧
      audioFetches (downloadTracks net f (pre ++ bad :: post) fs).1
          = pre.map (fun t => t.previewUrl) ++ [bad.previewUrl] ∧
      ∀ t ∈ pre, f ++ [trackFileName t] ∈ (downloadTracks net f (pre ++ bad :: post) fs).2.1 := by
  intro pre
  induction pre with
  | nil =>
    intro post fs _
    refine ⟨by simp [downloadTracks, hbad], by simp [downloadTracks, hbad], by simp⟩
  | cons t pre' ih =>
    intro post fs hok
    have hokt : net.ok t.previewUrl = true := hok t (List.mem_cons_self _ _)
    have hok' : ∀ x ∈ pre', net.ok x.previewUrl = true :=
      fun x hx => hok x (List.mem_cons_of_mem _ hx)
    obtain ⟨ih1, ih2, ih3⟩ := ih post (insertFS (f ++ [trackFileName t]) fs) hok'
    refine ⟨?_, ?_, ?_⟩
    · rw [List.cons_append]
      unfold downloadTracks
      simpa [hokt] using ih1
    · rw [List.cons_append]
      unfold downloadTracks
      simp [hokt, ih2]
    · intro x hx
      rw [List.cons_append]
      unfold downloadTracks
      simp only [hokt, if_true]
      cases List.mem_cons.mp hx with
      | inl h0 =>
        subst h0
        exact downloadTracks_fs_mono net f _ _ (self_mem_insertFS _ _)
      | inr h0 => exact ih3 x h0

/-! ## Basic facts about `splitOnce` -/

theorem splitOnce_ne_nil (sep : Char) (s : List Char) : splitOnce sep s ≠ [] := by
  cases s with
  | nil => simp [splitOnce]
  | cons c rest =>
    unfold splitOnce
    split
    · simp
    · cases h : splitOnce sep rest <;> simp

theorem splitOnce_of_not_mem {sep : Char} {s : List Char} (h : sep ∉ s) :
    splitOnce sep s = [s] := by
  induction s with
  | nil => rfl
  | cons c rest ih =>
    have hc : ¬ c = sep := fun hc => h (hc ▸ List.mem_cons_self c rest)
    have hr : sep ∉ rest := fun hr => h (List.mem_cons_of_mem _ hr)
    unfold splitOnce
    rw [if_neg hc, ih hr]

theorem splitOnce_of_mem {sep : Char} {s : List Char} (h : sep ∈ s) :
    ∃ a b, splitOnce sep s = [a, b] ∧ s = a ++ sep :: b ∧ sep ∉ a := by
  induction s with
  | nil => cases h
  | cons c rest ih =>
    by_cases hc : c = sep
    · refine ⟨[], rest, ?_, ?_, ?_⟩
      · unfold splitOnce; rw [if_pos hc]
      · simp [hc]
      · simp
    · have hr : sep ∈ rest := by
        cases List.mem_cons.mp h with
        | inl h0 => exact absurd h0.symm hc
        | inr h0 => exact h0
      obtain ⟨a, b, hsp, hdecomp, hna⟩ := ih hr
      refine ⟨c :: a, b, ?_, ?_, ?_⟩
      · unfold splitOnce; rw [if_neg hc, hsp]
      · simp [hdecomp]
      · intro hmem
        cases List.mem_cons.mp hmem with
        | inl h0 => exact hc h0.symm
        | inr h0 => exact hna h0

/-- When the URL contains no dot, `rsplit` returns the whole URL as sole
piece, so `[-1]` is the URL itself. -/
theorem extOf_of_no_dot {url : String} (h : '.' ∉ url.data) : extOf url = url := by
  have h' : '.' ∉ url.data.reverse := by
    intro hm; exact h (List.mem_reverse.mp hm)
  simp [extOf, pyRsplit1, splitOnce_of_not_mem h']

/-- When the URL contains a dot, the extension is the suffix after the LAST
dot: the URL decomposes as `pre ++ '.' :: ext` with no dot in `ext`. -/
theorem extOf_of_dot {url : String} (h : '.' ∈ url.data) :
    ∃ pre, url.data = pre ++ '.' :: (extOf url).data ∧ '.' ∉ (extOf url).data := by
  have h' : '.' ∈ url.data.reverse := List.mem_reverse.mpr h
  obtain ⟨a, b, hsp, hdecomp, hna⟩ := splitOnce_of_mem h'
  have hext : extOf url = String.mk a.reverse := by
    simp [extOf, pyRsplit1, hsp]
  refine ⟨b.reverse, ?_, ?_⟩
  · have : url.data = b.reverse ++ '.' :: a.reverse := by
      have := congrArg List.reverse hdecomp
      simpa using this
    rw [hext]; exact this
  · rw [hext]
    intro hm
    exact hna (List.mem_reverse.mp hm)

/-- The first piece of a `split("-", 1)` is the prefix before the first
separator (the whole string when the separator is absent). -/
theorem yearOf_of_dash {rd : String} (h : '-' ∈ rd.data) :
    ∃ tail, rd.data = (yearOf rd).data ++ '-' :: tail ∧ '-' ∉ (yearOf rd).data := by
  obtain ⟨a, b, hsp, hdecomp, hna⟩ := splitOnce_of_mem h
  have hy : yearOf rd = String.mk a := by simp [yearOf, pySplit1, hsp]
  exact ⟨b, by rw [hy]; exact hdecomp, by rw [hy]; exact hna⟩

theorem yearOf_of_no_dash {rd : String} (h : '-' ∉ rd.data) : yearOf rd = rd := by
  simp [yearOf, pySplit1, splitOnce_of_not_mem h]

example : trackFileName ⟨"http://x/05.mp3", "Song", 5, none, none⟩ = "05. Song.mp3" := by
  decide

example : yearOf "2001-01-01" = "2001" := by decide

example : songFolder ⟨"u", "T", 1, some ⟨some "Disc", none⟩, some "2001-01-01"⟩ ["out"]
    = ["out", "2001 - Disc"] := by decide

/-! ## Claim C1 -/

/-- C1: for every valid single-track page (preview URL containing a dot),
the computed file name is `"<NN>. <title>.<ext>"` where `NN` is the track
number zero-padded to width at least 2 and `<ext>` is the substring of the
preview URL after the last `'.'` (the URL splits as `pre ++ "." ++ ext`
with no dot in `ext`). -/
theorem c1_file_name (t : TrackInfo) (h : '.' ∈ t.previewUrl.data) :
    ∃ pre : List Char,
      t.previewUrl.data = pre ++ '.' :: (extOf t.previewUrl).data ∧
      '.' ∉ (extOf t.previewUrl).data ∧
      trackFileName t =
        format02 t.albumTrackNumber ++ ". " ++ t.title ++ "." ++ extOf t.previewUrl ∧
      2 ≤ (format02 t.albumTrackNumber).length := by
  obtain ⟨pre, hdec, hnd⟩ := extOf_of_dot h
  refine ⟨pre, hdec, hnd, rfl, ?_⟩
  have hlen : (format02 t.albumTrackNumber).length =
      (2 - (Nat.repr t.albumTrackNumber).length) + (Nat.repr t.albumTrackNumber).length := by
    simp [format02]
  omega

theorem c1_file_name_witness :
    ('.' ∈ ("http://host/a.mp3" : String).data) ∧
    ∃ pre : List Char,
      ("http://host/a.mp3" : String).data
          = pre ++ '.' :: (extOf "http://host/a.mp3").data ∧
      '.' ∉ (extOf "http://host/a.mp3").data ∧
      trackFileName ⟨"http://host/a.mp3", "Song", 5, none, none⟩ =
        format02 5 ++ ". " ++ "Song" ++ "." ++ extOf "http://host/a.mp3" ∧
      2 ≤ (format02 5).length :=
  ⟨by decide, c1_file_name ⟨"http://host/a.mp3", "Song", 5, none, none⟩ (by decide)⟩

/-! ## Claim C10 -/

/-- C10: when the preview URL contains no `'.'`, `rsplit(".", 1)` returns
the whole URL as its only piece, so the computed extension is the entire
URL and the file name is `"<NN>. <title>.<whole URL>"`; the computation
never fails. -/
theorem c10_no_dot_file_name (t : TrackInfo) (h : '.' ∉ t.previewUrl.data) :
    trackFileName t =
      format02 t.albumTrackNumber ++ ". " ++ t.title ++ "." ++ t.previewUrl := by
  unfold trackFileName
  rw [extOf_of_no_dot h]

theorem c10_no_dot_file_name_witness :
    ('.' ∉ ("nodoturl" : String).data) ∧
    trackFileName ⟨"nodoturl", "Song", 3, none, none⟩ =
      format02 3 ++ ". " ++ "Song" ++ "." ++ "nodoturl" :=
  ⟨by decide, c10_no_dot_file_name ⟨"nodoturl", "Song", 3, none, none⟩ (by decide)⟩

/-! ## Claim C2 -/

/-- C2, counterexample: the claim says that for a malformed (non
`"YYYY-..."`) release date the destination folder is the output root
unchanged.  But with album name `"Disc"` present and the malformed release
date `"notadate"`, the code computes `<root>/"notadate - Disc"` (the
`split("-", 1)[0]` of a dash-free string is the whole string, and only a
`KeyError` — a missing field — triggers the fallback), which differs from
the root. -/
theorem c2_counterexample :
    songFolder ⟨"u", "T", 1, some ⟨some "Disc", none⟩, some "notadate"⟩ ["out"]
        = ["out", "notadate - Disc"] ∧
    songFolder ⟨"u", "T", 1, some ⟨some "Disc", none⟩, some "notadate"⟩ ["out"]
        ≠ ["out"] := by
  decide

/-- C2, amended: when both the album name and the release date are
present, the destination folder is always
`<root>/<prefix of the release date before the first '-'> - <album name>`
(for a well-formed `"YYYY-..."` date that prefix is the year; a malformed
date is still used, not replaced by the root); only a missing field
(`KeyError`) falls back to the output root unchanged, and the download
does not fail because of incomplete album metadata (its only possible
error is a transport error on the audio fetch).  The same rule governs
`download_album`'s folder, with label `"Unknown album"` on fallback. -/
theorem c2_amended_folder (output : Path) (nm rd ti pu : String)
    (aw : Option Artwork) (n : Nat) (net : Net) (fs : FS) :
    songFolder ⟨pu, ti, n, some ⟨some nm, aw⟩, some rd⟩ output
        = output ++ [yearOf rd ++ " - " ++ nm] ∧
    ('-' ∈ rd.data →
      ∃ tail, rd.data = (yearOf rd).data ++ '-' :: tail ∧ '-' ∉ (yearOf rd).data) ∧
    ('-' ∉ rd.data → yearOf rd = rd) ∧
    songFolder ⟨pu, ti, n, none, some rd⟩ output = output ∧
    songFolder ⟨pu, ti, n, some ⟨none, aw⟩, some rd⟩ output = output ∧
    songFolder ⟨pu, ti, n, some ⟨some nm, aw⟩, none⟩ output = output ∧
    albumFolderLabel ⟨some ti, some rd, aw⟩ output
        = (output ++ [yearOf rd ++ " - " ++ ti], ti) ∧
    albumFolderLabel ⟨none, some rd, aw⟩ output = (output, "Unknown album") ∧
    albumFolderLabel ⟨some ti, none, aw⟩ output = (output, "Unknown album") ∧
    (download_song net ⟨pu, ti, n, none, none⟩ output fs).error
        = (if net.ok pu then none else some (.transport pu)) := by
  refine ⟨rfl, yearOf_of_dash, yearOf_of_no_dash, rfl, rfl, rfl, rfl, rfl, rfl, ?_⟩
  by_cases hok : net.ok pu
  · simp [download_song, hok, TrackInfo.coverLookup, coverStep]
  · simp [download_song, hok]

theorem c2_amended_folder_witness :
    ('-' ∈ ("2001-01-01" : String).data) ∧
    (∃ tail, ("2001-01-01" : String).data
        = (yearOf "2001-01-01").data ++ '-' :: tail ∧
      '-' ∉ (yearOf "2001-01-01").data) :=
  ⟨by decide,
    (c2_amended_folder ["out"] "Disc" "2001-01-01" "Al" "u" none 1
      ⟨fun _ => true, fun _ => ""⟩ []).2.1 (by decide)⟩

/-! ## Claim C3 -/

/-- C3: the cover image is fetched at most once per call in both modes,
and when `<folder>/folder.jpg` already exists (the existence check happens
before any cover network call), a run performs zero cover-art network
calls — both for a single track and for a whole album. -/
theorem c3_cover_at_most_once (net : Net) (t : TrackInfo) (a : AlbumInfo)
    (tracks : List TrackInfo) (output : Path) (fs fs0 : FS)
    (h1 : songFolder t output ++ ["folder.jpg"] ∈ fs)
    (h2 : (albumFolderLabel a output).1 ++ ["folder.jpg"] ∈ fs) :
    coverFetches (download_song net t output fs).events = [] ∧
    coverFetches (download_album net a tracks output fs).events = [] ∧
    (coverFetches (download_song net t output fs0).events).length ≤ 1 ∧
    (coverFetches (download_album net a tracks output fs0).events).length ≤ 1 := by
  refine ⟨?_, ?_, ?_, ?_⟩
  · by_cases hok : net.ok t.previewUrl
    · simp [download_song, hok, mem_insertFS_of_mem h1]
    · simp [download_song, hok]
  · simp [download_album, h2, downloadTracks_coverFetches]
  · by_cases hok : net.ok t.previewUrl
    · by_cases hmem : songFolder t output ++ ["folder.jpg"]
          ∈ insertFS (songFolder t output ++ [trackFileName t]) fs0
      · simp [download_song, hok, hmem]
      · simp only [download_song, hok, if_true, if_neg hmem]
        simpa using coverStep_coverFetches_le net t.coverLookup
          (songFolder t output ++ ["folder.jpg"]) [] _ rfl
    · simp [download_song, hok]
  · by_cases hmem : (albumFolderLabel a output).1 ++ ["folder.jpg"] ∈ fs0
    · simp [download_album, hmem, downloadTracks_coverFetches]
    · simp only [download_album, if_neg hmem]
      simp [downloadTracks_coverFetches]
      simpa using coverStep_coverFetches_le net a.coverLookup
        ((albumFolderLabel a output).1 ++ ["folder.jpg"])
        [.printErr ("Couldn't find a cover for album " ++ (albumFolderLabel a output).2)]
        fs0 rfl

theorem c3_cover_at_most_once_witness :
    (songFolder sampleTrack1 ["out"] ++ ["folder.jpg"]
        ∈ [["out", "folder.jpg"], ["out", "2001 - Al", "folder.jpg"]]) ∧
    ((albumFolderLabel sampleAlbumNoArt ["out"]).1 ++ ["folder.jpg"]
        ∈ [["out", "folder.jpg"], ["out", "2001 - Al", "folder.jpg"]]) ∧
    (coverFetches (download_song allOkNet sampleTrack1 ["out"]
        [["out", "folder.jpg"], ["out", "2001 - Al", "folder.jpg"]]).events = [] ∧
     coverFetches (download_album allOkNet sampleAlbumNoArt [sampleTrack1] ["out"]
        [["out", "folder.jpg"], ["out", "2001 - Al", "folder.jpg"]]).events = [] ∧
     (coverFetches (download_song allOkNet sampleTrack1 ["out"] []).events).length ≤ 1 ∧
     (coverFetches (download_album allOkNet sampleAlbumNoArt [sampleTrack1]
        ["out"] []).events).length ≤ 1) :=
  ⟨by decide, by decide,
    c3_cover_at_most_once allOkNet sampleTrack1 sampleAlbumNoArt [sampleTrack1]
      ["out"] [["out", "folder.jpg"], ["out", "2001 - Al", "folder.jpg"]] []
      (by decide) (by decide)⟩

/-! ## Claim C4 -/

/-- C4: in album mode the tracks are downloaded sequentially in the order
given; when every track of `pre` succeeds and `bad` fails with a transport
error, the call errors with that transport failure, the audio fetches are
exactly `pre`'s URLs followed by `bad`'s (nothing after the failure is
fetched), and the files written for `pre` remain in the filesystem. -/
theorem c4_transport_aborts_album (net : Net) (a : AlbumInfo) (output : Path) (fs : FS)
    (pre post : List TrackInfo) (bad : TrackInfo)
    (hok : ∀ t ∈ pre, net.ok t.previewUrl = true)
    (hbad : net.ok bad.previewUrl = false) :
    (download_album net a (pre ++ bad :: post) output fs).error
        = some (.transport bad.previewUrl) ∧
    audioFetches (download_album net a (pre ++ bad :: post) output fs).events
        = pre.map (fun t => t.previewUrl) ++ [bad.previewUrl] ∧
    ∀ t ∈ pre, (albumFolderLabel a output).1 ++ [trackFileName t]
        ∈ (download_album net a (pre ++ bad :: post) output fs).fs := by
  have main := downloadTracks_abort net (albumFolderLabel a output).1 bad hbad pre post
  refine ⟨?_, ?_, ?_⟩
  · by_cases hc : (albumFolderLabel a output).1 ++ ["folder.jpg"] ∈ fs
    · simp only [download_album, if_pos hc]
      exact (main _ hok).1
    · simp only [download_album, if_neg hc]
      exact (main _ hok).1
  · by_cases hc : (albumFolderLabel a output).1 ++ ["folder.jpg"] ∈ fs
    · simp [download_album, hc]
      exact (main _ hok).2.1
    · simp [download_album, hc, coverStep_audioFetches]
      exact (main _ hok).2.1
  · intro x hx
    by_cases hc : (albumFolderLabel a output).1 ++ ["folder.jpg"] ∈ fs
    · simp only [download_album, if_pos hc]
      exact (main _ hok).2.2 x hx
    · simp only [download_album, if_neg hc]
      exact (main _ hok).2.2 x hx

theorem c4_transport_aborts_album_witness :
    (∀ t ∈ [sampleTrack1], badTrackNet.ok t.previewUrl = true) ∧
    badTrackNet.ok sampleBadTrack.previewUrl = false ∧
    (download_album badTrackNet sampleAlbumNoArt
        [sampleTrack1, sampleBadTrack, samplePostTrack] ["out"] []).error
      = some (.transport sampleBadTrack.previewUrl) :=
  ⟨by decide, by decide,
    (c4_transport_aborts_album badTrackNet sampleAlbumNoArt ["out"] []
      [sampleTrack1] [samplePostTrack] sampleBadTrack (by decide) (by decide)).1⟩

/-! ## Claim C8 -/

/-- C8: in single-track mode (with a successful audio fetch), the run
never fails because of cover art — the outcome's error is `none` whatever
the network does to the cover URL and whatever artwork metadata is present
or missing — and a cover fetch happens only when `<folder>/folder.jpg` did
not already exist and the nested artwork URL is present and non-empty. -/
theorem c8_cover_best_effort (net : Net) (t : TrackInfo) (output : Path) (fs : FS)
    (h : net.ok t.previewUrl = true) :
    (download_song net t output fs).error = none ∧
    ∀ u ∈ coverFetches (download_song net t output fs).events,
      songFolder t output ++ ["folder.jpg"] ∉ fs ∧
      t.coverLookup = .ok (some u) ∧ u ≠ "" := by
  by_cases hmem : songFolder t output ++ ["folder.jpg"]
      ∈ insertFS (songFolder t output ++ [trackFileName t]) fs
  · refine ⟨by simp [download_song, h, hmem], ?_⟩
    intro u hu
    simp [download_song, h, hmem] at hu
  · refine ⟨by simp [download_song, h, hmem], ?_⟩
    intro u hu
    simp only [download_song, h, if_true, if_neg hmem] at hu
    simp at hu
    have hcs := coverStep_coverFetches_mem (show coverFetches [] = [] from rfl) hu
    exact ⟨not_mem_of_not_mem_insertFS hmem, hcs.1, hcs.2⟩

theorem c8_cover_best_effort_witness :
    allOkNet.ok sampleArtTrack.previewUrl = true ∧
    ((download_song allOkNet sampleArtTrack ["out"] []).error = none ∧
     ∀ u ∈ coverFetches (download_song allOkNet sampleArtTrack ["out"] []).events,
       songFolder sampleArtTrack ["out"] ++ ["folder.jpg"] ∉ ([] : FS) ∧
       sampleArtTrack.coverLookup = .ok (some u) ∧ u ≠ "") :=
  ⟨by decide, c8_cover_best_effort allOkNet sampleArtTrack ["out"] [] (by decide)⟩

/-! ## Claim C5 -/

theorem Json.getKey_ok_of_hasKey {fields : List (String × Json)} {k : String}
    (h : (Json.obj fields).hasKey k = true) :
    ∃ v, (Json.obj fields).getKey k = .ok v := by
  simp only [Json.hasKey] at h
  cases hl : fields.lookup k with
  | none => rw [hl] at h; simp at h
  | some v => exact ⟨v, by simp [Json.getKey, hl]⟩

/-- C5: the dispatch on the decoded page structure: a `track` key selects
single-track mode on that substructure; otherwise a `tracks` key selects
album mode on the `album` and `tracks` substructures; otherwise the run
fails with exactly the "No track info found" exception and with no other
kind of crash. -/
theorem c5_dispatch_shape (fields : List (String × Json)) :
    ((Json.obj fields).hasKey "track" = true →
      ∃ t, dispatch (.obj fields) = .ok (.singleTrack t)) ∧
    ((Json.obj fields).hasKey "track" = false →
      (Json.obj fields).hasKey "tracks" = true →
      (Json.obj fields).hasKey "album" = true →
      ∃ al ts, dispatch (.obj fields) = .ok (.albumMode al ts)) ∧
    ((Json.obj fields).hasKey "track" = false →
      (Json.obj fields).hasKey "tracks" = false →
      dispatch (.obj fields) = .error (.exc "No track info found")) := by
  refine ⟨?_, ?_, ?_⟩
  · intro h
    obtain ⟨t, ht⟩ := Json.getKey_ok_of_hasKey h
    exact ⟨t, by simp [dispatch, h, ht]⟩
  · intro h1 h2 h3
    obtain ⟨al, hal⟩ := Json.getKey_ok_of_hasKey h3
    obtain ⟨ts, hts⟩ := Json.getKey_ok_of_hasKey h2
    exact ⟨al, ts, by simp [dispatch, h1, h2, hal, hts]⟩
  · intro h1 h2
    simp [dispatch, h1, h2]

theorem c5_dispatch_shape_witness :
    (Json.obj sampleAlbumFields).hasKey "track" = false ∧
    (Json.obj sampleAlbumFields).hasKey "tracks" = true ∧
    (Json.obj sampleAlbumFields).hasKey "album" = true ∧
    (∃ al ts, dispatch (.obj sampleAlbumFields) = .ok (.albumMode al ts)) ∧
    dispatch (.obj [("other", Json.null)]) = .error (.exc "No track info found") :=
  ⟨by decide, by decide, by decide,
    (c5_dispatch_shape sampleAlbumFields).2.1 (by decide) (by decide) (by decide),
    (c5_dispatch_shape [("other", Json.null)]).2.2 (by decide) (by decide)⟩

/-! ## Claim C6 -/

/-- C6: the extractor fails with the "Data segment not found" exception
when zero elements carry the `__NEXT_DATA__` identifier, and with the
"No page info found." exception when the `props.pageProps` path is absent
(a `KeyError` on the nested lookup); in the first case the run exits with
code 1 and the message names the missing data segment. -/
theorem c6_extractor_failures (d : Json) (rest : List Json) (k : String)
    (h : pagePropsLookup d = .error (.keyError k)) :
    findPageInfo [] = .error (.exc "Data segment not found") ∧
    findPageInfo (d :: rest) = .error (.exc "No page info found.") ∧
    mainExit (.completed (some (.exc "Data segment not found")))
        = (1, ["An error occurred: Data segment not found"]) ∧
    mainExit (.completed (some (.exc "No page info found.")))
        = (1, ["An error occurred: No page info found."]) := by
  refine ⟨rfl, ?_, rfl, rfl⟩
  simp [findPageInfo, h]

theorem c6_extractor_failures_witness :
    pagePropsLookup (Json.obj []) = .error (.keyError "props") ∧
    findPageInfo [Json.obj []] = .error (.exc "No page info found.") :=
  ⟨rfl, (c6_extractor_failures (Json.obj []) [] "props" rfl).2.1⟩

/-! ## Claim C7 -/

/-- C7: exit code 0 on success; exit code 1 with a single-line diagnostic
on the error stream for any handled error; exit code 127 with the message
"Interrupted." on the error stream for a user interrupt. -/
theorem c7_exit_codes (e : PyError) :
    mainExit (.completed none) = (0, []) ∧
    mainExit (.completed (some e)) = (1, ["An error occurred: " ++ errMsg e]) ∧
    (mainExit (.completed (some e))).2.length = 1 ∧
    mainExit .interrupted = (127, ["Interrupted."]) :=
  ⟨rfl, rfl, rfl, rfl⟩

/-! ## Claim C9 -/

/-- C9, counterexample: the claim says a failed cover fetch is reported as
a notice on the error stream.  With album metadata carrying the artwork
URL `"cov"` and a network on which that URL fails, the cover fetch is
attempted and fails, yet nothing is printed to stderr (the album-mode
notice exists only in the `except KeyError` branch, i.e. for a missing
artwork key, not for a failed fetch), and the album download continues
and succeeds. -/
theorem c9_counterexample :
    coverFetches (download_album badCoverNet sampleAlbum [sampleTrack1] ["out"] []).events
        = ["cov"] ∧
    badCoverNet.ok "cov" = false ∧
    errPrints (download_album badCoverNet sampleAlbum [sampleTrack1] ["out"] []).events
        = [] ∧
    (download_album badCoverNet sampleAlbum [sampleTrack1] ["out"] []).error = none ∧
    audioFetches (download_album badCoverNet sampleAlbum [sampleTrack1] ["out"] []).events
        = ["a.mp3"] := by
  decide

/-- C9, amended: in album mode the cover fetch is attempted at most once
and before any track download; a MISSING artwork key (`KeyError`) is
reported as a non-fatal notice on the error stream, while a FAILED cover
fetch is silently ignored (no stderr output at all when the artwork lookup
succeeds); in every case the album download continues — the only possible
error of an album download is a transport error on a track fetch. -/
theorem c9_album_cover_notice (net : Net) (a : AlbumInfo) (tracks : List TrackInfo)
    (output : Path) (fs : FS) :
    (coverFetches (download_album net a tracks output fs).events).length ≤ 1 ∧
    (∃ preEvs postEvs,
      (download_album net a tracks output fs).events = preEvs ++ postEvs ∧
      audioFetches preEvs = [] ∧ coverFetches postEvs = []) ∧
    (a.coverLookup = .error () →
      (albumFolderLabel a output).1 ++ ["folder.jpg"] ∉ fs →
      Event.printErr ("Couldn't find a cover for album " ++ (albumFolderLabel a output).2)
        ∈ (download_album net a tracks output fs).events) ∧
    (∀ v, a.coverLookup = .ok v →
      errPrints (download_album net a tracks output fs).events = []) ∧
    ((download_album net a tracks output fs).error = none ∨
      ∃ u, (download_album net a tracks output fs).error = some (.transport u)) := by
  refine ⟨?_, ?_, ?_, ?_, ?_⟩
  · by_cases hc : (albumFolderLabel a output).1 ++ ["folder.jpg"] ∈ fs
    · simp [download_album, hc, downloadTracks_coverFetches]
    · simp only [download_album, if_neg hc]
      simp [downloadTracks_coverFetches]
      simpa using coverStep_coverFetches_le net a.coverLookup
        ((albumFolderLabel a output).1 ++ ["folder.jpg"])
        [.printErr ("Couldn't find a cover for album " ++ (albumFolderLabel a output).2)]
        fs rfl
  · refine ⟨_, _, rfl, ?_, ?_⟩
    · by_cases hc : (albumFolderLabel a output).1 ++ ["folder.jpg"] ∈ fs
      · simp [hc]
      · simp [hc, coverStep_audioFetches]
    · exact downloadTracks_coverFetches net _ tracks _
  · intro hKE hnm
    simp [download_album, hnm, hKE, coverStep]
  · intro v hv
    by_cases hc : (albumFolderLabel a output).1 ++ ["folder.jpg"] ∈ fs
    · simp [download_album, hc, downloadTracks_errPrints]
    · simp [download_album, hc, hv, coverStep_errPrints_ok, downloadTracks_errPrints]
  · have := downloadTracks_error_shape net (albumFolderLabel a output).1 tracks
    by_cases hc : (albumFolderLabel a output).1 ++ ["folder.jpg"] ∈ fs
    · simp only [download_album, if_pos hc]
      exact this _
    · simp only [download_album, if_neg hc]
      exact this _

theorem c9_album_cover_notice_witness :
    AlbumInfo.coverLookup sampleAlbumNoArt = .error () ∧
    ((albumFolderLabel sampleAlbumNoArt ["out"]).1 ++ ["folder.jpg"] ∉ ([] : FS)) ∧
    Event.printErr ("Couldn't find a cover for album "
        ++ (albumFolderLabel sampleAlbumNoArt ["out"]).2)
      ∈ (download_album allOkNet sampleAlbumNoArt [sampleTrack1] ["out"] []).events :=
  ⟨rfl, by decide,
    (c9_album_cover_notice allOkNet sampleAlbumNoArt [sampleTrack1] ["out"] []).2.2.1
      rfl (by decide)⟩

end AnDl
